import Mathlib

/-!
Shallow embedding of `main.go` of the `bandcamp` wishlist scraper, together
with theorems checking the natural-language specification against it.

The embedding mirrors the Go source:
* the JSON data structures (`DataBlob`, `ItemData`, `Item`, `BlobTrack`,
  `APIItemsResponse`) become Lean structures; Go maps become association
  lists (a Go map has unique keys and its iteration visits each key once);
* the anchored regular expression `id="pagedata".*?data-blob="(.*?)">` and
  `strings.ReplaceAll(…, "&quot;", "\"")` are modelled character by
  character, including Go's leftmost-first match and the fact that `.`
  does not match a newline;
* JSON (un)marshalling of the API response is modelled on a JSON value
  tree (`JVal`), mirroring `encoding/json` field handling for the structs
  involved (exact-name keys, unknown keys ignored, `null` is a no-op);
* the network is an oracle parameter: `main`'s GET and `GetWishlist`'s
  POST receive the outcome of the request from the environment, and the
  decoding of the page blob (`json.Unmarshal` into `DataBlob`) is likewise
  an oracle of the environment, since only its success or failure steers
  the control flow under scrutiny;
* everything printed with `fmt.Println` is collected into a list of
  output events (Go writes both URLs and error messages to stdout).
-/

namespace Bandcamp

/-- `type Item struct` (main.go lines 73-82): date added, item URL, item type. -/
structure Item where
  Added : String
  ItemURL : String
  ItemType : String
deriving DecidableEq

/-- `type ItemData struct` (main.go lines 41-57): pagination cursor and the
orderings of one item category. -/
structure ItemData where
  LastToken : String
  Sequence : List String
  PendingSequence : List String
deriving DecidableEq

/-- The anonymous `ItemCache` struct inside `DataBlob` (lines 25-28): two
id-to-item maps, modelled as association lists. -/
structure ItemCache where
  Collection : List (String × Item)
  Wishlist : List (String × Item)
deriving DecidableEq

/-- The anonymous `FanData` struct inside `DataBlob` (lines 33-35). -/
structure FanData where
  ID : Int
deriving DecidableEq

/-- `type BlobTrack struct` (lines 59-63). -/
structure BlobTrack where
  BandName : String
  Title : String
  AlbumID : Int
deriving DecidableEq

/-- `type DataBlob struct` (lines 18-36): the JSON blob baked into the page. -/
structure DataBlob where
  TrackList : List BlobTrack
  ItemCache : ItemCache
  CollectionData : ItemData
  WishlistData : ItemData
  FanData : FanData
deriving DecidableEq

/-- `type APIItemsResponse struct` (lines 65-69). -/
structure APIItemsResponse where
  Items : List Item
  MoreAvailable : Bool
  LastToken : String
deriving DecidableEq

/-- The inner loop of the join in `main` (lines 137-142): scan the wishlist
cache for the first entry whose key equals `trackID`; on a match print the
item's URL and `break`. The returned list is what this scan prints. -/
def scanCache (trackID : String) : List (String × Item) → List String
  | [] => []
  | (itemcacheID, item) :: rest =>
    if trackID = itemcacheID then [item.ItemURL] else scanCache trackID rest

/-- The join-and-print loop of `main` (lines 136-143): for each identifier of
`WishlistData.Sequence` in order, run `scanCache` over the wishlist cache. -/
def joinAndPrint : List String → List (String × Item) → List String
  | [], _ => []
  | trackID :: rest, wishlist => scanCache trackID wishlist ++ joinAndPrint rest wishlist

/-! ## The blob extraction of `main` (lines 124-127)

`regexp.MustCompile("id=\"pagedata\".*?data-blob=\"(.*?)\">")` followed by
`FindStringSubmatch` and `strings.ReplaceAll(m[1], "&quot;", "\"")`.
Go's `regexp` returns the leftmost match, and among matches at that
position the one a backtracking search finds first (lazy `.*?` takes as
few characters as possible); `.` does not match `'\n'`. -/

/-- The literal `id="pagedata"` that anchors the pattern. -/
def pagedataAnchor : List Char := "id=\"pagedata\"".data

/-- The literal `data-blob="` that opens the capture group. -/
def datablobAttr : List Char := "data-blob=\"".data

/-- The literal `">` that terminates the capture group. -/
def blobTerm : List Char := "\">".data

/-- The literal `&quot;` entity replaced by `strings.ReplaceAll`. -/
def quotEntity : List Char := "&quot;".data

/-- `.*?lit`: consume as few characters as possible (none of them `'\n'`,
since `.` does not match a newline) until `lit` is a prefix; return the
consumed characters and what follows `lit`. -/
def lazyScan (lit : List Char) : List Char → Option (List Char × List Char)
  | [] => if lit.isPrefixOf [] then some ([], ([] : List Char).drop lit.length) else none
  | c :: rest =>
    if lit.isPrefixOf (c :: rest) then some ([], (c :: rest).drop lit.length)
    else if c = '\n' then none
    else (lazyScan lit rest).map fun p => (c :: p.1, p.2)

/-- Try to match the whole pattern starting exactly at `s`: the anchor
literal, then `.*?`, then `data-blob="`, then the capture `(.*?)`, then
`">`. Returns the capture group. -/
def tryMatchAt (s : List Char) : Option (List Char) :=
  if pagedataAnchor.isPrefixOf s then
    match lazyScan datablobAttr (s.drop pagedataAnchor.length) with
    | none => none
    | some (_, afterAttr) =>
      match lazyScan blobTerm afterAttr with
      | none => none
      | some (capture, _) => some capture
  else none

/-- `FindStringSubmatch` for this pattern: the capture group of the
leftmost match, scanning candidate start positions left to right. -/
def findCapture : List Char → Option (List Char)
  | [] => none
  | s@(_ :: rest) =>
    match tryMatchAt s with
    | some capture => some capture
    | none => findCapture rest

/-- `strings.ReplaceAll(s, "&quot;", "\"")`: replace every non-overlapping
occurrence of `&quot;`, left to right, by a double quote. -/
def replaceQuot : List Char → List Char
  | [] => []
  | c :: rest =>
    if quotEntity.isPrefixOf (c :: rest) then
      '"' :: replaceQuot ((c :: rest).drop quotEntity.length)
    else c :: replaceQuot rest
termination_by s => s.length
decreasing_by
  · simp [quotEntity]
    omega
  · simp

/-- The runtime fault of `datablobMatch[1]` when `FindStringSubmatch`
returned `nil`: a Go index-out-of-range panic. -/
inductive Fault where
  | indexOutOfRange
deriving DecidableEq

/-- Lines 125-127 of `main`: run the pattern over the body and access the
capture group `datablobMatch[1]`, then unescape `&quot;`. When no match is
found, `FindStringSubmatch` returns `nil` and the index access panics. -/
def extractStep (body : List Char) : Except Fault (List Char) :=
  match findCapture body with
  | none => .error .indexOutOfRange
  | some capture => .ok (replaceQuot capture)

/-! ## JSON model

`encoding/json` is modelled on a tree of JSON values. Marshalling a struct
produces an object whose fields appear in struct order (for a
`map[string]string`, in sorted key order); unmarshalling an object into a
struct processes the keys in document order, ignores unknown keys, treats
`null` as a no-op and fails on a type mismatch. Only the exact field names
emitted by the marshaller are modelled (Go additionally matches field
names case-insensitively, which none of the claims depend on). A response
body that is not syntactically valid JSON is represented by `JBody.invalid`. -/

/-- A JSON value. -/
inductive JVal where
  | null
  | bool (b : Bool)
  | num (n : Int)
  | str (s : String)
  | arr (elems : List JVal)
  | obj (fields : List (String × JVal))

/-- A response body as handed to `json.Unmarshal`: either syntactically
invalid JSON, or a JSON value. -/
inductive JBody where
  | invalid
  | val (j : JVal)

/-- Unmarshal one object field into an `Item` (keys `added`, `item_url`,
`item_type`; unknown keys ignored, `null` is a no-op, non-string values
are a type mismatch). -/
def decodeItemField (it : Item) (k : String) (v : JVal) : Option Item :=
  if k = "added" then
    match v with
    | .str s => some { it with Added := s }
    | .null => some it
    | _ => none
  else if k = "item_url" then
    match v with
    | .str s => some { it with ItemURL := s }
    | .null => some it
    | _ => none
  else if k = "item_type" then
    match v with
    | .str s => some { it with ItemType := s }
    | .null => some it
    | _ => none
  else some it

/-- Unmarshal the fields of an `Item` object in document order. -/
def decodeItemFields (it : Item) : List (String × JVal) → Option Item
  | [] => some it
  | (k, v) :: rest =>
    match decodeItemField it k v with
    | none => none
    | some it2 => decodeItemFields it2 rest

/-- Unmarshal a JSON value into an `Item` (starting from the zero value). -/
def decodeItem : JVal → Option Item
  | .null => some ⟨"", "", ""⟩
  | .obj fields => decodeItemFields ⟨"", "", ""⟩ fields
  | _ => none

/-- Unmarshal a JSON array element-wise into a list of `Item`s. -/
def decodeItemList : List JVal → Option (List Item)
  | [] => some []
  | v :: vs =>
    match decodeItem v, decodeItemList vs with
    | some it, some its => some (it :: its)
    | _, _ => none

/-- Unmarshal one object field into an `APIItemsResponse` (keys
`track_list`, `more_available`, `last_token`). -/
def decodeRespField (r : APIItemsResponse) (k : String) (v : JVal) :
    Option APIItemsResponse :=
  if k = "track_list" then
    match v with
    | .null => some r
    | .arr vs => (decodeItemList vs).map fun its => { r with Items := its }
    | _ => none
  else if k = "more_available" then
    match v with
    | .bool b => some { r with MoreAvailable := b }
    | .null => some r
    | _ => none
  else if k = "last_token" then
    match v with
    | .str s => some { r with LastToken := s }
    | .null => some r
    | _ => none
  else some r

/-- Unmarshal the fields of an `APIItemsResponse` object in document order. -/
def decodeRespFields (r : APIItemsResponse) : List (String × JVal) → Option APIItemsResponse
  | [] => some r
  | (k, v) :: rest =>
    match decodeRespField r k v with
    | none => none
    | some r2 => decodeRespFields r2 rest

/-- `json.Unmarshal(body, &response)` for `response : APIItemsResponse`
(main.go lines 103-106), starting from the zero value. -/
def fromJsonAPIItemsResponse : JVal → Option APIItemsResponse
  | .null => some ⟨[], false, ""⟩
  | .obj fields => decodeRespFields ⟨[], false, ""⟩ fields
  | _ => none

/-- `json.Marshal` of an `Item` (struct field order). -/
def itemToJson (it : Item) : JVal :=
  .obj [("added", .str it.Added), ("item_url", .str it.ItemURL), ("item_type", .str it.ItemType)]

/-- `json.Marshal` of an `APIItemsResponse` (struct field order). -/
def toJsonAPIItemsResponse (r : APIItemsResponse) : JVal :=
  .obj [("track_list", .arr (r.Items.map itemToJson)),
        ("more_available", .bool r.MoreAvailable),
        ("last_token", .str r.LastToken)]

/-! ## The network, `GetWishlist` and `main`

The two HTTP calls are oracles supplied by the environment. Each call can
fail at the transport (`http.Get`/`http.Post` returning an error), fail
while the body is read (`ioutil.ReadAll` returning an error), or succeed
with a status code and a body. Go errors are classified by the step that
produced them; `fmt.Println` output (item URLs and error values alike) is
collected on a single stdout stream. -/

/-- The kind of error a step produces, mirroring the spec's taxonomy. -/
inductive RunError where
  | netError
  | readError
  | malformedBlob
  | malformedResponse
deriving DecidableEq

/-- One line written to stdout by `fmt.Println`: either an item URL or the
rendering of an error value. -/
inductive Out where
  | line (s : String)
  | errOut (e : RunError)
deriving DecidableEq

/-- The POST request `GetWishlist` hands to `http.Post` (line 91). -/
structure PostRequest where
  url : String
  contentType : String
  body : JVal

/-- Outcome of `http.Post` plus the subsequent body read, supplied by the
environment. -/
inductive PostOutcome where
  | transportFailure
  | readFailure (status : Nat)
  | success (status : Nat) (body : JBody)

/-- Outcome of `http.Get` plus the subsequent body read (main.go lines
112-122); a successful read yields the raw HTML text. -/
inductive FetchOutcome where
  | transportFailure
  | readFailure (status : Nat)
  | success (status : Nat) (body : List Char)

/-- The fixed API endpoint of `GetWishlist` (line 91). -/
def wishlistEndpoint : String := "https://bandcamp.com/api/fancollection/1/wishlist_items"

/-- The request built by `GetWishlist` (lines 85-91): `json.Marshal` of
`map[string]string{"fan_id": fanID, "older_than_token": lastpageToken}`
(map keys are marshalled in sorted order), posted with content type
`application/json`. -/
def GetWishlistRequest (fanID lastpageToken : String) : PostRequest :=
  { url := wishlistEndpoint
    contentType := "application/json"
    body := .obj [("fan_id", .str fanID), ("older_than_token", .str lastpageToken)] }

/-- `func GetWishlist` (lines 84-109). Returns the lines it printed itself
(it prints the read error before returning it, line 99), the
`APIItemsResponse` value, and the error, mirroring the Go return values.
On every failure the returned response is the zero value. -/
def GetWishlist (post : PostRequest → PostOutcome) (fanID lastpageToken : String) :
    List Out × APIItemsResponse × Option RunError :=
  match post (GetWishlistRequest fanID lastpageToken) with
  | .transportFailure => ([], ⟨[], false, ""⟩, some .netError)
  | .readFailure _ => ([.errOut .readError], ⟨[], false, ""⟩, some .readError)
  | .success _ .invalid => ([], ⟨[], false, ""⟩, some .malformedResponse)
  | .success _ (.val j) =>
    match fromJsonAPIItemsResponse j with
    | none => ([], ⟨[], false, ""⟩, some .malformedResponse)
    | some response => ([], response, none)

/-- `strconv.Itoa` on the fan id (line 145). -/
def Itoa (n : Int) : String := toString n

/-- How the process ends: a plain return from `main` (exit status 0), or a
runtime panic (the unchecked `datablobMatch[1]`). -/
inductive MainExit where
  | success
  | panicked
deriving DecidableEq

/-- The environment `main` runs in: the outcome of the page GET, the
behaviour of `json.Unmarshal` into `DataBlob` on the extracted text (an
oracle for the stdlib JSON parser; only its success or failure steers
`main`), and the POST oracle used by `GetWishlist`. -/
structure MainEnv where
  pageFetch : FetchOutcome
  decodeBlob : List Char → Option DataBlob
  post : PostRequest → PostOutcome

/-- Lines 136-153 of `main`: everything after the blob has been decoded —
the join-and-print loop, the `GetWishlist` call, and the printing of the
next page. -/
def mainFromBlob (post : PostRequest → PostOutcome) (blob : DataBlob) :
    List Out × MainExit :=
  let firstPage :=
    (joinAndPrint blob.WishlistData.Sequence blob.ItemCache.Wishlist).map Out.line
  match GetWishlist post (Itoa blob.FanData.ID) blob.WishlistData.LastToken with
  | (printed, _, some e) => (firstPage ++ printed ++ [.errOut e], .success)
  | (printed, nextPage, none) =>
    (firstPage ++ printed ++ nextPage.Items.map (fun item => Out.line item.ItemURL), .success)

/-- `func main` (lines 111-154): GET the page, read the body, extract the
blob with the regular expression (an absent match panics on
`datablobMatch[1]`), unescape `&quot;`, unmarshal the blob, then
`mainFromBlob`. Every checked error is printed to stdout and `main`
returns (exit status 0). -/
def mainRun (env : MainEnv) : List Out × MainExit :=
  match env.pageFetch with
  | .transportFailure => ([.errOut .netError], .success)
  | .readFailure _ => ([.errOut .readError], .success)
  | .success _ body =>
    match findCapture body with
    | none => ([], .panicked)
    | some capture =>
      match env.decodeBlob (replaceQuot capture) with
      | none => ([.errOut .malformedBlob], .success)
      | some blob => mainFromBlob env.post blob

/-- Wishlist blobs used to exhibit noninterference: they agree on the
wishlist cache, the wishlist sequence, the wishlist cursor and the fan id,
and differ everywhere else. -/
def blobLeft : DataBlob :=
  { TrackList := [⟨"band", "t1", 1⟩]
    ItemCache := { Collection := [("9", ⟨"d", "cu", "album"⟩)]
                   Wishlist := [("a", ⟨"2020", "u1", "album"⟩)] }
    CollectionData := { LastToken := "ct", Sequence := ["9"], PendingSequence := [] }
    WishlistData := { LastToken := "wt", Sequence := ["a"], PendingSequence := ["p"] }
    FanData := ⟨5⟩ }

/-- See `blobLeft`. -/
def blobRight : DataBlob :=
  { TrackList := []
    ItemCache := { Collection := [], Wishlist := [("a", ⟨"2020", "u1", "album"⟩)] }
    CollectionData := { LastToken := "", Sequence := [], PendingSequence := ["q"] }
    WishlistData := { LastToken := "wt", Sequence := ["a"], PendingSequence := [] }
    FanData := ⟨5⟩ }

theorem scanCache_eq_lookup (trackID : String) (w : List (String × Item)) :
    scanCache trackID w = ((List.lookup trackID w).map Item.ItemURL).toList := by
  induction w with
  | nil => rfl
  | cons p rest ih =>
    obtain ⟨k, it⟩ := p
    by_cases h : trackID = k
    · subst h; simp [scanCache, List.lookup]
    · have hb : (trackID == k) = false := by simp [h]
      simp [scanCache, List.lookup, h, hb, ih]

theorem joinAndPrint_eq_filterMap (sequence : List String) (wishlist : List (String × Item)) :
    joinAndPrint sequence wishlist
      = sequence.filterMap (fun trackID => (List.lookup trackID wishlist).map Item.ItemURL) := by
  induction sequence with
  | nil => rfl
  | cons trackID rest ih =>
    rw [joinAndPrint, scanCache_eq_lookup, ih, List.filterMap_cons]
    cases List.lookup trackID wishlist <;> simp

/-- **C1.** Join-and-print emits exactly one URL line for each identifier of
`wishlistData.sequence` that has a matching key in `itemCache.wishlist`
(first matching cache entry), nothing for identifiers without a match, in
`sequence` order; an empty sequence or an empty wishlist cache produces no
output. -/
theorem c1_join_and_print (sequence : List String) (wishlist : List (String × Item)) :
    joinAndPrint sequence wishlist
      = sequence.filterMap (fun trackID => (List.lookup trackID wishlist).map Item.ItemURL)
    ∧ joinAndPrint [] wishlist = []
    ∧ joinAndPrint sequence [] = [] := by
  refine ⟨joinAndPrint_eq_filterMap sequence wishlist, rfl, ?_⟩
  rw [joinAndPrint_eq_filterMap]
  simp [List.lookup]

theorem quotEntity_eq : quotEntity = ['&', 'q', 'u', 'o', 't', ';'] := rfl

theorem isPrefixOf_false_mono (p s t : List Char) (h : p.isPrefixOf (s ++ t) = false) :
    p.isPrefixOf s = false := by
  by_contra hc
  rw [Bool.not_eq_false, List.isPrefixOf_iff_prefix] at hc
  rw [← Bool.not_eq_true, List.isPrefixOf_iff_prefix] at h
  exact h (hc.trans (List.prefix_append s t))

theorem lazyScan_of_isPrefixOf (lit s : List Char) (h : lit.isPrefixOf s = true) :
    lazyScan lit s = some ([], s.drop lit.length) := by
  cases s <;> simp [lazyScan, h]

theorem lazyScan_exact (lit xs ys : List Char) (hnl : '\n' ∉ xs)
    (hocc : ∀ i, i < xs.length → lit.isPrefixOf ((xs ++ (lit ++ ys)).drop i) = false) :
    lazyScan lit (xs ++ (lit ++ ys)) = some (xs, ys) := by
  induction xs with
  | nil =>
    rw [List.nil_append,
      lazyScan_of_isPrefixOf lit (lit ++ ys) (List.isPrefixOf_iff_prefix.mpr (List.prefix_append lit ys))]
    rw [List.drop_left]
  | cons x xs ih =>
    have h0 : lit.isPrefixOf (x :: (xs ++ (lit ++ ys))) = false := by
      have := hocc 0 (by simp)
      simpa using this
    have hx : ¬ x = '\n' := by
      intro hx'
      exact hnl (by simp [hx'])
    rw [List.cons_append, lazyScan, if_neg (by simp [h0]), if_neg hx,
      ih (fun hm => hnl (List.mem_cons_of_mem x hm))
        (fun i hi => by
          have := hocc (i + 1) (by simpa using Nat.succ_lt_succ hi)
          simpa using this)]
    rfl

theorem tryMatchAt_exact (b c d : List Char) (hb1 : '\n' ∉ b)
    (hb2 : ∀ i, i < b.length →
      datablobAttr.isPrefixOf ((b ++ (datablobAttr ++ (c ++ (blobTerm ++ d)))).drop i) = false)
    (hc1 : '\n' ∉ c)
    (hc2 : ∀ i, i < c.length → blobTerm.isPrefixOf ((c ++ (blobTerm ++ d)).drop i) = false) :
    tryMatchAt (pagedataAnchor ++ (b ++ (datablobAttr ++ (c ++ (blobTerm ++ d))))) = some c := by
  rw [tryMatchAt,
    if_pos (List.isPrefixOf_iff_prefix.mpr (List.prefix_append pagedataAnchor _)),
    List.drop_left]
  simp only [lazyScan_exact datablobAttr b (c ++ (blobTerm ++ d)) hb1 hb2,
    lazyScan_exact blobTerm c d hc1 hc2]

theorem findCapture_cons_of_tryMatchAt (s : List Char) (cap : List Char)
    (hs : s ≠ []) (h : tryMatchAt s = some cap) : findCapture s = some cap := by
  cases s with
  | nil => exact absurd rfl hs
  | cons x rest => rw [findCapture, h]

theorem findCapture_skip (pre rest : List Char)
    (hocc : ∀ i, i < pre.length → pagedataAnchor.isPrefixOf ((pre ++ rest).drop i) = false) :
    findCapture (pre ++ rest) = findCapture rest := by
  induction pre with
  | nil => rw [List.nil_append]
  | cons x pre ih =>
    have h0 : pagedataAnchor.isPrefixOf (x :: (pre ++ rest)) = false := by
      have := hocc 0 (by simp)
      simpa using this
    rw [List.cons_append, findCapture, tryMatchAt, if_neg (by simp [h0])]
    exact ih (fun i hi => by
      have := hocc (i + 1) (by simpa using Nat.succ_lt_succ hi)
      simpa using this)

theorem replaceQuot_no_occurrence (w : List Char)
    (h : ∀ i, i < w.length → quotEntity.isPrefixOf (w.drop i) = false) :
    replaceQuot w = w := by
  induction w with
  | nil => exact replaceQuot.eq_1
  | cons x w ih =>
    have h0 : quotEntity.isPrefixOf (x :: w) = false := by
      have := h 0 (by simp)
      simpa using this
    rw [replaceQuot.eq_2, if_neg (by simp [h0]),
      ih (fun i hi => by
        have := h (i + 1) (by simpa using Nat.succ_lt_succ hi)
        simpa using this)]

theorem replaceQuot_entity_append (u v : List Char)
    (hu : ∀ i, i < u.length → quotEntity.isPrefixOf ((u ++ (quotEntity ++ v)).drop i) = false) :
    replaceQuot (u ++ (quotEntity ++ v)) = replaceQuot u ++ '"' :: replaceQuot v := by
  induction u with
  | nil =>
    rw [List.nil_append]
    have hpre : quotEntity.isPrefixOf (quotEntity ++ v) = true :=
      List.isPrefixOf_iff_prefix.mpr (List.prefix_append quotEntity v)
    rw [show quotEntity ++ v = '&' :: ('q' :: ('u' :: ('o' :: ('t' :: (';' :: v))))) from rfl] at hpre ⊢
    rw [replaceQuot.eq_2, if_pos hpre,
      show List.drop quotEntity.length ('&' :: ('q' :: ('u' :: ('o' :: ('t' :: (';' :: v)))))) = v
        from rfl, replaceQuot.eq_1, List.nil_append]
  | cons x u ih =>
    have h0 : quotEntity.isPrefixOf (x :: (u ++ (quotEntity ++ v))) = false := by
      have := hu 0 (by simp)
      simpa using this
    have h0u : quotEntity.isPrefixOf (x :: u) = false := by
      have := isPrefixOf_false_mono quotEntity (x :: u) (quotEntity ++ v) (by simpa using h0)
      exact this
    rw [List.cons_append, replaceQuot.eq_2, if_neg (by simp [h0]),
      ih (fun i hi => by
        have := hu (i + 1) (by simpa using Nat.succ_lt_succ hi)
        simpa using this)]
    conv_rhs => rw [replaceQuot.eq_2, if_neg (by simp [h0u])]
    rw [List.cons_append]

theorem decodeItem_itemToJson (it : Item) : decodeItem (itemToJson it) = some it := by
  obtain ⟨a, u, t⟩ := it
  rfl

theorem decodeItemList_map (l : List Item) : decodeItemList (l.map itemToJson) = some l := by
  induction l with
  | nil => rfl
  | cons it l ih => rw [List.map_cons, decodeItemList, decodeItem_itemToJson, ih]

theorem decodeRespField_track_list (r : APIItemsResponse) (vs : List JVal) :
    decodeRespField r "track_list" (.arr vs)
      = (decodeItemList vs).map fun its => { r with Items := its } := rfl

theorem decodeRespField_more_available (r : APIItemsResponse) (b : Bool) :
    decodeRespField r "more_available" (.bool b) = some { r with MoreAvailable := b } := rfl

theorem decodeRespField_last_token (r : APIItemsResponse) (s : String) :
    decodeRespField r "last_token" (.str s) = some { r with LastToken := s } := rfl

theorem fromJson_toJson (r : APIItemsResponse) :
    fromJsonAPIItemsResponse (toJsonAPIItemsResponse r) = some r := by
  obtain ⟨items, ma, lt⟩ := r
  simp only [toJsonAPIItemsResponse, fromJsonAPIItemsResponse, decodeRespFields,
    decodeRespField_track_list, decodeRespField_more_available, decodeRespField_last_token,
    decodeItemList_map, Option.map_some']

/-- **C6.** Encoding an `APIItemsResponse` to JSON and decoding it back
yields a field-for-field equal value. -/
theorem c6_round_trip (r : APIItemsResponse) :
    fromJsonAPIItemsResponse (toJsonAPIItemsResponse r) = some r :=
  fromJson_toJson r

theorem GetWishlist_printed (post : PostRequest → PostOutcome) (fanID lastpageToken : String) :
    (GetWishlist post fanID lastpageToken).1 = []
    ∨ (GetWishlist post fanID lastpageToken).1 = [.errOut .readError] := by
  rcases hpost : post (GetWishlistRequest fanID lastpageToken) with _ | s | ⟨s, b⟩
  · left; simp [GetWishlist, hpost]
  · right; simp [GetWishlist, hpost]
  · cases b with
    | invalid => left; simp [GetWishlist, hpost]
    | val j =>
      rcases hj : fromJsonAPIItemsResponse j with _ | r
      · left; simp [GetWishlist, hpost, hj]
      · left; simp [GetWishlist, hpost, hj]

/-- **C2.** The claim requires a checked `BlobNotFoundError` on a body
without the `pagedata`/`data-blob` pattern. The code instead accesses
`datablobMatch[1]` on the `nil` result of `FindStringSubmatch` and panics
with an index-out-of-range fault: an unchecked runtime error, not a
checked failure. -/
theorem c2_missing_blob_panics :
    extractStep "<html><body>no page data here</body></html>".data
      = Except.error Fault.indexOutOfRange
    ∧ mainRun { pageFetch := .success 200 "<html><body>no page data here</body></html>".data,
                decodeBlob := fun _ => none,
                post := fun _ => .transportFailure } = ([], .panicked) :=
  ⟨rfl, rfl⟩

/-- **C3.** On a well-formed body — built from filler `a`, the anchor
`id="pagedata"`, a gap `b`, the attribute opener `data-blob="`, the blob
text `c`, the terminator `">` and a tail `d`, with the side conditions the
lazy leftmost match imposes (no anchor occurrence starting earlier, no
newline and no earlier occurrence of the delimiting literal in the gap or
the blob) — the extractor captures exactly `c`; the unescaping step maps
every literal `&quot;` occurrence to `"` and leaves text without such an
occurrence unchanged, decoding no other entity. -/
theorem c3_extract_and_unescape (a b c d u v w : List Char)
    (ha : ∀ i, i < a.length →
      pagedataAnchor.isPrefixOf
        ((a ++ (pagedataAnchor ++ (b ++ (datablobAttr ++ (c ++ (blobTerm ++ d)))))).drop i)
        = false)
    (hb1 : '\n' ∉ b)
    (hb2 : ∀ i, i < b.length →
      datablobAttr.isPrefixOf ((b ++ (datablobAttr ++ (c ++ (blobTerm ++ d)))).drop i) = false)
    (hc1 : '\n' ∉ c)
    (hc2 : ∀ i, i < c.length → blobTerm.isPrefixOf ((c ++ (blobTerm ++ d)).drop i) = false)
    (hu : ∀ i, i < u.length → quotEntity.isPrefixOf ((u ++ (quotEntity ++ v)).drop i) = false)
    (hw : ∀ i, i < w.length → quotEntity.isPrefixOf (w.drop i) = false) :
    findCapture (a ++ (pagedataAnchor ++ (b ++ (datablobAttr ++ (c ++ (blobTerm ++ d))))))
      = some c
    ∧ replaceQuot (u ++ (quotEntity ++ v)) = replaceQuot u ++ '"' :: replaceQuot v
    ∧ replaceQuot w = w := by
  refine ⟨?_, replaceQuot_entity_append u v hu, replaceQuot_no_occurrence w hw⟩
  rw [findCapture_skip a _ ha]
  refine findCapture_cons_of_tryMatchAt _ c ?_ (tryMatchAt_exact b c d hb1 hb2 hc1 hc2)
  intro h
  exact absurd (List.append_eq_nil.mp h).1 (by decide)

theorem c3_witness :
    findCapture ("<p>".data ++ (pagedataAnchor ++ (" ".data ++ (datablobAttr ++
        ("&quot;k&quot;:1".data ++ (blobTerm ++ "</div>".data))))))
      = some "&quot;k&quot;:1".data
    ∧ replaceQuot ("x=".data ++ (quotEntity ++ "y".data))
      = replaceQuot "x=".data ++ '"' :: replaceQuot "y".data
    ∧ replaceQuot "&amp;z".data = "&amp;z".data :=
  c3_extract_and_unescape "<p>".data " ".data "&quot;k&quot;:1".data "</div>".data
    "x=".data "y".data "&amp;z".data
    (by decide) (by decide) (by decide) (by decide) (by decide) (by decide) (by decide)

/-- **C4.** `GetWishlist` posts exactly the two-key body
`fan_id`/`older_than_token` to the fixed endpoint with content type
`application/json`; it returns an error on transport failure, body-read
failure and JSON decode failure, and the decoded response on success. -/
theorem c4_get_wishlist (post : PostRequest → PostOutcome) (fanID lastpageToken : String) :
    (GetWishlistRequest fanID lastpageToken).url
      = "https://bandcamp.com/api/fancollection/1/wishlist_items"
    ∧ (GetWishlistRequest fanID lastpageToken).contentType = "application/json"
    ∧ (GetWishlistRequest fanID lastpageToken).body
        = JVal.obj [("fan_id", .str fanID), ("older_than_token", .str lastpageToken)]
    ∧ (post (GetWishlistRequest fanID lastpageToken) = .transportFailure →
        GetWishlist post fanID lastpageToken = ([], ⟨[], false, ""⟩, some .netError))
    ∧ (∀ status, post (GetWishlistRequest fanID lastpageToken) = .readFailure status →
        GetWishlist post fanID lastpageToken
          = ([.errOut .readError], ⟨[], false, ""⟩, some .readError))
    ∧ (∀ status, post (GetWishlistRequest fanID lastpageToken) = .success status .invalid →
        GetWishlist post fanID lastpageToken = ([], ⟨[], false, ""⟩, some .malformedResponse))
    ∧ (∀ status j, post (GetWishlistRequest fanID lastpageToken) = .success status (.val j) →
        fromJsonAPIItemsResponse j = none →
        GetWishlist post fanID lastpageToken = ([], ⟨[], false, ""⟩, some .malformedResponse))
    ∧ (∀ status j response,
        post (GetWishlistRequest fanID lastpageToken) = .success status (.val j) →
        fromJsonAPIItemsResponse j = some response →
        GetWishlist post fanID lastpageToken = ([], response, none)) := by
  refine ⟨rfl, rfl, rfl, ?_, ?_, ?_, ?_, ?_⟩ <;> intros <;> simp [GetWishlist, *]

theorem c4_witness :
    GetWishlist (fun _ => PostOutcome.transportFailure) "42" "tok"
      = ([], ⟨[], false, ""⟩, some .netError) :=
  (c4_get_wishlist (fun _ => PostOutcome.transportFailure) "42" "tok").2.2.2.1 rfl

/-- **C5.** On any checked failure (page fetch, body read, blob decode,
pagination call) the error is printed to the single stdout stream, the run
aborts with nothing emitted beyond what was printed before the failing
step (plus the error print itself — the pagination body-read error is
printed once inside `GetWishlist` and once by `main`), and the process
exits without a non-zero status. -/
theorem c5_error_propagation (env : MainEnv) :
    (env.pageFetch = .transportFailure → mainRun env = ([.errOut .netError], .success))
    ∧ (∀ status, env.pageFetch = .readFailure status →
        mainRun env = ([.errOut .readError], .success))
    ∧ (∀ status body capture, env.pageFetch = .success status body →
        findCapture body = some capture → env.decodeBlob (replaceQuot capture) = none →
        mainRun env = ([.errOut .malformedBlob], .success))
    ∧ (∀ status body capture blob e, env.pageFetch = .success status body →
        findCapture body = some capture → env.decodeBlob (replaceQuot capture) = some blob →
        (GetWishlist env.post (Itoa blob.FanData.ID) blob.WishlistData.LastToken).2.2 = some e →
        mainRun env =
          ((joinAndPrint blob.WishlistData.Sequence blob.ItemCache.Wishlist).map Out.line
            ++ (GetWishlist env.post (Itoa blob.FanData.ID) blob.WishlistData.LastToken).1
            ++ [.errOut e], .success))
    ∧ (∀ post fanID lastpageToken, (GetWishlist post fanID lastpageToken).1 = []
        ∨ (GetWishlist post fanID lastpageToken).1 = [.errOut .readError]) := by
  refine ⟨?_, ?_, ?_, ?_, GetWishlist_printed⟩
  · intro h; simp [mainRun, h]
  · intro status h; simp [mainRun, h]
  · intro status body capture hf hc hd; simp [mainRun, hf, hc, hd]
  · intro status body capture blob e hf hc hd hg
    simp only [mainRun, hf, hc, hd]
    rcases hG : GetWishlist env.post (Itoa blob.FanData.ID) blob.WishlistData.LastToken
      with ⟨printed, resp, err⟩
    rw [hG] at hg
    simp only at hg
    subst hg
    simp [mainFromBlob, hG]

theorem c5_witness :
    mainRun { pageFetch := FetchOutcome.transportFailure,
              decodeBlob := fun _ => none,
              post := fun _ => PostOutcome.transportFailure }
      = ([.errOut .netError], .success) :=
  (c5_error_propagation _).1 rfl

/-- **C7.** Every item of a decoded response's `track_list` is returned by
`GetWishlist` and printed by `main`, whatever the value of
`more_available`: the response `r` is arbitrary, so in particular
`more_available = false` with a non-empty list still prints every item. -/
theorem c7_flag_never_filters (r : APIItemsResponse) (blob : DataBlob) (status : Nat) :
    GetWishlist (fun _ => .success status (.val (toJsonAPIItemsResponse r)))
        (Itoa blob.FanData.ID) blob.WishlistData.LastToken = ([], r, none)
    ∧ mainFromBlob (fun _ => .success status (.val (toJsonAPIItemsResponse r))) blob
      = ((joinAndPrint blob.WishlistData.Sequence blob.ItemCache.Wishlist).map Out.line
          ++ r.Items.map (fun item => Out.line item.ItemURL), .success) := by
  have h : GetWishlist (fun _ => .success status (.val (toJsonAPIItemsResponse r)))
      (Itoa blob.FanData.ID) blob.WishlistData.LastToken = ([], r, none) := by
    simp [GetWishlist, fromJson_toJson]
  exact ⟨h, by simp [mainFromBlob, h]⟩

/-- **C8.** Whenever `GetWishlist` returns a non-nil error, the response
value returned alongside is the zero value: no items, flag `false`, empty
token. -/
theorem c8_zero_on_error (post : PostRequest → PostOutcome) (fanID lastpageToken : String)
    (e : RunError) (h : (GetWishlist post fanID lastpageToken).2.2 = some e) :
    (GetWishlist post fanID lastpageToken).2.1 = ⟨[], false, ""⟩ := by
  rcases hpost : post (GetWishlistRequest fanID lastpageToken) with _ | s | ⟨s, b⟩
  · simp [GetWishlist, hpost]
  · simp [GetWishlist, hpost]
  · cases b with
    | invalid => simp [GetWishlist, hpost]
    | val j =>
      rcases hj : fromJsonAPIItemsResponse j with _ | r
      · simp [GetWishlist, hpost, hj]
      · rw [GetWishlist, hpost] at h
        simp [hj] at h

theorem c8_witness :
    (GetWishlist (fun _ => PostOutcome.transportFailure) "7" "t").2.1 = ⟨[], false, ""⟩ :=
  c8_zero_on_error (fun _ => PostOutcome.transportFailure) "7" "t" .netError rfl

/-- **C9.** Two blobs agreeing on the wishlist cache, the wishlist
sequence, the wishlist cursor and the fan id produce identical output
given identical API responses, and send identical requests: `TrackList`,
`ItemCache.Collection`, `CollectionData` and the pending sequences never
influence anything printed or sent. -/
theorem c9_noninterference (b1 b2 : DataBlob) (post : PostRequest → PostOutcome)
    (hW : b1.ItemCache.Wishlist = b2.ItemCache.Wishlist)
    (hS : b1.WishlistData.Sequence = b2.WishlistData.Sequence)
    (hT : b1.WishlistData.LastToken = b2.WishlistData.LastToken)
    (hF : b1.FanData.ID = b2.FanData.ID) :
    mainFromBlob post b1 = mainFromBlob post b2
    ∧ GetWishlistRequest (Itoa b1.FanData.ID) b1.WishlistData.LastToken
      = GetWishlistRequest (Itoa b2.FanData.ID) b2.WishlistData.LastToken := by
  constructor
  · simp only [mainFromBlob, hW, hS, hT, hF]
  · rw [hT, hF]

theorem c9_witness :
    mainFromBlob (fun _ => PostOutcome.transportFailure) blobLeft
      = mainFromBlob (fun _ => PostOutcome.transportFailure) blobRight
    ∧ GetWishlistRequest (Itoa blobLeft.FanData.ID) blobLeft.WishlistData.LastToken
      = GetWishlistRequest (Itoa blobRight.FanData.ID) blobRight.WishlistData.LastToken :=
  c9_noninterference blobLeft blobRight (fun _ => PostOutcome.transportFailure) rfl rfl rfl rfl

/-- **C10.** `GetWishlist` never inspects the HTTP status code: any
response whose body decodes is returned without error, whatever the
status (404, 500, …). -/
theorem c10_status_ignored (post : PostRequest → PostOutcome) (fanID lastpageToken : String)
    (status : Nat) (j : JVal) (r : APIItemsResponse)
    (hp : post (GetWishlistRequest fanID lastpageToken) = .success status (.val j))
    (hj : fromJsonAPIItemsResponse j = some r) :
    GetWishlist post fanID lastpageToken = ([], r, none) := by
  simp [GetWishlist, hp, hj]

theorem c10_witness :
    GetWishlist (fun _ => PostOutcome.success 404 (JBody.val JVal.null)) "12" ""
      = ([], ⟨[], false, ""⟩, none) :=
  c10_status_ignored (fun _ => PostOutcome.success 404 (JBody.val JVal.null)) "12" ""
    404 JVal.null ⟨[], false, ""⟩ rfl rfl

end Bandcamp
